import Mathlib

/-!
Shallow embedding of the timestamp canonicalization and ordering-validation
logic of this repository.

The embedded sources are:
  * `check_order.py` : `convert_timestamp_to_nanoseconds(timestamp_str, granularity)`
    and `validate_timestamp_ordering(df, granularity)`, plus the aggregate
    pass/fail computation of `test_routing_sequence_timestamp_ordering`;
  * `full_test.py`   : the colon-separated variant of
    `convert_timestamp_to_nanoseconds` (no internal exception handler) and the
    per-row granularity check of `validate_timestamp_with_schema`;
  * `time_sequence_new.py` : the dot-separated variant that parses the
    sub-second token with a plain `int(...)`, and the DataFrame-level schema
    check `timesequence == timestamp.apply(convert_timestamp_to_nanoseconds)`.

Python-level semantics that the claims depend on are modelled explicitly:
  * `str.split(sep)` with a one-character separator (`pySplit`);
  * `int(str)` on a decimal string (`pyInt`; optional surrounding whitespace
    and an optional sign followed by ASCII digits; underscored literals are
    not modelled, no input reaching `int` in the sources can contain one);
  * `str.ljust(w, '0')[:w]` (`pyLjustTake`);
  * `datetime(...)` field validation and `(dt - epoch).total_seconds()`
    (proleptic Gregorian calendar arithmetic, `toOrdinal`, `secondsSinceEpoch`);
  * the IEEE-754 double-precision rounding performed by
    `int(seconds_since_epoch * 1_000_000_000)`: both factors are exactly
    representable doubles, so the multiplication yields the true integer
    product rounded to 53 significant bits, round-half-to-even (`round53`),
    and the `int(...)` conversion of that integer-valued double is exact.
-/

namespace PyStr

/-- Model of Python `s.split(sep)` for a single-character separator. -/
def pySplit (sep : Char) : List Char → List (List Char)
  | [] => [[]]
  | c :: rest =>
    if c = sep then [] :: pySplit sep rest
    else
      match pySplit sep rest with
      | g :: gs => (c :: g) :: gs
      | [] => [[c]]

/-- Whitespace characters stripped by Python `int(str)`. -/
def isPySpace (c : Char) : Bool :=
  c = ' ' || c = '\t' || c = '\n' || c = '\r'

/-- Strip leading and trailing whitespace, as Python `int(str)` does. -/
def pyStrip (cs : List Char) : List Char :=
  ((cs.dropWhile isPySpace).reverse.dropWhile isPySpace).reverse

/-- Decimal value of a digit string (most significant digit first). -/
def digitsVal (cs : List Char) : Nat :=
  cs.foldl (fun a c => a * 10 + (c.toNat - 48)) 0

/-- Parse a nonempty all-digit string, as the digit-run part of `int(str)`. -/
def parseNatDigits (cs : List Char) : Option Nat :=
  if cs ≠ [] ∧ cs.all (·.isDigit) then some (digitsVal cs) else none

/-- Model of Python `int(str)`: optional surrounding whitespace, optional
sign, then a nonempty run of decimal digits; anything else raises
(`none` here). -/
def pyInt (cs : List Char) : Option Int :=
  let t := pyStrip cs
  if t.head? = some '+' then (parseNatDigits t.tail).map (fun n => (n : Int))
  else if t.head? = some '-' then (parseNatDigits t.tail).map (fun n => -(n : Int))
  else (parseNatDigits t).map (fun n => (n : Int))

/-- Model of Python `s.ljust(w, '0')[:w]`: pad on the right with `'0'` up to
width `w`, then truncate to width `w`. -/
def pyLjustTake (cs : List Char) (w : Nat) : List Char :=
  (cs ++ List.replicate (w - cs.length) '0').take w

end PyStr

namespace PyCalendar

/-- Python `datetime` leap-year rule (proleptic Gregorian). -/
def isLeapYear (y : Nat) : Bool :=
  y % 4 = 0 && (y % 100 ≠ 0 || y % 400 = 0)

/-- Days in each month of a non-leap year. -/
def daysInMonthTable : Nat → Nat
  | 1 => 31 | 2 => 28 | 3 => 31 | 4 => 30 | 5 => 31 | 6 => 30
  | 7 => 31 | 8 => 31 | 9 => 30 | 10 => 31 | 11 => 30 | 12 => 31
  | _ => 0

/-- Days in a month, accounting for leap-year February. -/
def daysInMonth (y m : Nat) : Nat :=
  if m = 2 ∧ isLeapYear y then 29 else daysInMonthTable m

/-- Cumulative days before each month in a non-leap year. -/
def daysBeforeMonthTable : Nat → Nat
  | 1 => 0 | 2 => 31 | 3 => 59 | 4 => 90 | 5 => 120 | 6 => 151
  | 7 => 181 | 8 => 212 | 9 => 243 | 10 => 273 | 11 => 304 | 12 => 334
  | _ => 0

/-- Cumulative days before month `m` of year `y`. -/
def daysBeforeMonth (y m : Nat) : Nat :=
  daysBeforeMonthTable m + (if 2 < m ∧ isLeapYear y then 1 else 0)

/-- Days before January 1 of year `y` in the proleptic Gregorian calendar. -/
def daysBeforeYear (y : Nat) : Nat :=
  365 * (y - 1) + (y - 1) / 4 + (y - 1) / 400 - (y - 1) / 100

/-- Python `datetime.toordinal()`: day number of `y-m-d`, with 0001-01-01
as day 1. -/
def toOrdinal (y m d : Nat) : Nat :=
  daysBeforeYear y + daysBeforeMonth y m + d

/-- Ordinal of the Unix epoch 1970-01-01, i.e. `datetime(1970,1,1).toordinal()`. -/
def epochOrdinal : Nat := 719163

end PyCalendar

namespace PyFloat

/-- Floor of the base-2 logarithm by structural recursion on a fuel
argument; `log2fuel f n` is the floor log as long as `n < 2 ^ f`. -/
def log2fuel : Nat → Nat → Nat
  | 0, _ => 0
  | f + 1, n => if 2 ≤ n then log2fuel f (n / 2) + 1 else 0

/-- Floor of the base-2 logarithm.  Fuel 70 covers every value this
development feeds to `round53`: canonical nanosecond magnitudes are below
`2 ^ 68` (the largest valid datetime, year 9999, is about `2.5 * 10 ^ 20`
nanoseconds from the epoch). -/
def floorLog2 (n : Nat) : Nat := log2fuel 70 n

/-- Round a natural number of magnitude at least `2 ^ 53` to 53 significant
bits, round half to even. -/
def round53Nat (n : Nat) : Nat :=
  (if 2 ^ (floorLog2 n - 52 - 1) < n % 2 ^ (floorLog2 n - 52) then
     n / 2 ^ (floorLog2 n - 52) + 1
   else if n % 2 ^ (floorLog2 n - 52) < 2 ^ (floorLog2 n - 52 - 1) then
     n / 2 ^ (floorLog2 n - 52)
   else if (n / 2 ^ (floorLog2 n - 52)) % 2 = 0 then
     n / 2 ^ (floorLog2 n - 52)
   else n / 2 ^ (floorLog2 n - 52) + 1) * 2 ^ (floorLog2 n - 52)

/-- Rounding of an exact integer to the nearest IEEE-754 double
(53 significant bits, round half to even).  This is the value computed by
the Python expression `int(float(a) * float(b))` whenever `a * b = v` and
both factors are exactly representable doubles, since a product of exact
doubles is the correctly rounded true product, and converting the resulting
integer-valued double back with `int` is exact. -/
def round53 (v : Int) : Int :=
  if v.natAbs < 2 ^ 53 then v
  else v.sign * ((round53Nat v.natAbs : Nat) : Int)

end PyFloat

namespace TsFields

open PyCalendar PyFloat

/-- The parsed fields of a timestamp string, before and after the
`datetime(...)` range validation. -/
structure TimestampFields where
  year : Int
  month : Int
  day : Int
  hour : Int
  minute : Int
  second : Int
  nanosecond : Int
deriving DecidableEq

/-- The range validation performed by the `datetime(year, month, day, hour,
minute, second)` constructor: it raises `ValueError` unless every field is
within range. -/
def datetimeOk (f : TimestampFields) : Bool :=
  1 ≤ f.year && f.year ≤ 9999 &&
  1 ≤ f.month && f.month ≤ 12 &&
  1 ≤ f.day && f.day ≤ (daysInMonth f.year.toNat f.month.toNat : Int) &&
  0 ≤ f.hour && f.hour ≤ 23 &&
  0 ≤ f.minute && f.minute ≤ 59 &&
  0 ≤ f.second && f.second ≤ 59

/-- `(datetime(y,m,d,hh,mm,ss) - datetime(1970,1,1)).total_seconds()`, which
for a valid datetime is the exact integer of whole seconds since the epoch
(total_seconds of a microsecond-free timedelta is an exact small integer and
hence an exact double). -/
def secondsSinceEpoch (f : TimestampFields) : Int :=
  ((toOrdinal f.year.toNat f.month.toNat f.day.toNat : Int) - (epochOrdinal : Int)) * 86400
    + f.hour * 3600 + f.minute * 60 + f.second

/-- `int(seconds_since_epoch * 1_000_000_000) + nanosecond` with the
double-precision multiplication modelled by `round53`. -/
def pyCanonical (f : TimestampFields) : Int :=
  round53 (secondsSinceEpoch f * 1000000000) + f.nanosecond

end TsFields

namespace CheckOrder

open PyStr TsFields

/-- The granularity branch of `check_order.convert_timestamp_to_nanoseconds`:
`'nanosecond'` takes `subsecond_str.ljust(9,'0')[:9]` verbatim,
`'microsecond'` takes `subsecond_str.ljust(6,'0')[:6]` and multiplies by
1000; any other granularity raises `ValueError` (caught by the enclosing
`except`, hence `none` here). -/
def parseSubsecond (granularity : String) (sub : List Char) : Option Int :=
  if granularity = "nanosecond" then pyInt (pyLjustTake sub 9)
  else if granularity = "microsecond" then
    (pyInt (pyLjustTake sub 6)).map (fun micro => micro * 1000)
  else none

/-- The parsing phase of `check_order.convert_timestamp_to_nanoseconds`:
every Python statement of the `try` block that can raise is an `Option`
step here; `none` corresponds to a raised exception, caught by the
function's `except Exception` handler. -/
def parseTimestampFields (s : String) (granularity : String) :
    Option TimestampFields :=
  match pySplit '-' s.data with
  | [datePart, timePart] =>
    match pySplit ':' timePart with
    | t0 :: t1 :: t2 :: _ =>
      match pyInt (datePart.take 4), pyInt ((datePart.drop 4).take 2),
            pyInt ((datePart.drop 6).take 2), pyInt t0, pyInt t1 with
      | some year, some month, some day, some hour, some minute =>
        match pySplit '.' t2 with
        | s0 :: s1 :: _ =>
          match pyInt s0, parseSubsecond granularity s1 with
          | some second, some ns =>
            let f : TimestampFields :=
              ⟨year, month, day, hour, minute, second, ns⟩
            if datetimeOk f then some f else none
          | _, _ => none
        | _ => none
      | _, _, _, _, _ => none
    | _ => none
  | _ => none

/-- `check_order.convert_timestamp_to_nanoseconds`: the canonical value on
success, the sentinel `-1` when any step of the `try` block raises. -/
def convert_timestamp_to_nanoseconds (s : String)
    (granularity : String := "nanosecond") : Int :=
  match parseTimestampFields s granularity with
  | some f => pyCanonical f
  | none => -1

/-- An input row of `validate_timestamp_ordering`: the columns of the
routing query that the validator reads. -/
structure Row where
  id : Int
  routing_sequence : Int
  timestamp : String
deriving DecidableEq

/-- The caller's DataFrame: the input rows plus the `timestamp_ns` column
that `validate_timestamp_ordering` writes into it in place. -/
structure DataFrame where
  rows : List Row
  timestamp_ns : Option (List Int) := none
deriving DecidableEq

/-- One record of the validator's result DataFrame. -/
structure RowResult where
  row_index : Nat
  id : Int
  routing_sequence : Int
  timestamp : String
  timestamp_ns : Int
  previous_id : Option Int
  previous_routing_sequence : Option Int
  previous_timestamp : Option String
  previous_timestamp_ns : Option Int
  timestamp_difference_ns : Option Int
  is_valid : Bool
  validation_message : String
deriving DecidableEq

/-- The result record built for row 0 (no predecessor): the `result` dict as
initialized, never entering the `if i > 0` branch. -/
def firstRowResult (p : Row × Int) : RowResult :=
  { row_index := 0
    id := p.1.id
    routing_sequence := p.1.routing_sequence
    timestamp := p.1.timestamp
    timestamp_ns := p.2
    previous_id := none
    previous_routing_sequence := none
    previous_timestamp := none
    previous_timestamp_ns := none
    timestamp_difference_ns := none
    is_valid := true
    validation_message := "First row or valid ordering" }

/-- The diagnostic recorded on an ordering violation. -/
def disorderMsg (prev cur : Row × Int) (diff : Int) : String :=
  "DISORDER DETECTED: Timestamp increased when routing_sequence decreased. " ++
  "Previous ID=" ++ toString prev.1.id ++
  " (seq=" ++ toString prev.1.routing_sequence ++
  "), Current ID=" ++ toString cur.1.id ++
  " (seq=" ++ toString cur.1.routing_sequence ++
  "), Timestamp diff=" ++ toString diff ++ " ns"

/-- The result record built for row `i > 0`, comparing against row `i-1`:
the `result` dict after the `if i > 0` block ran, with the
`if current > previous / elif equal / else` branch folded into the two
fields it mutates. -/
def stepRowResult (i : Nat) (prev cur : Row × Int) : RowResult :=
  { row_index := i
    id := cur.1.id
    routing_sequence := cur.1.routing_sequence
    timestamp := cur.1.timestamp
    timestamp_ns := cur.2
    previous_id := some prev.1.id
    previous_routing_sequence := some prev.1.routing_sequence
    previous_timestamp := some prev.1.timestamp
    previous_timestamp_ns := some prev.2
    timestamp_difference_ns := some (cur.2 - prev.2)
    is_valid := if cur.2 > prev.2 then false else true
    validation_message :=
      if cur.2 > prev.2 then disorderMsg prev cur (cur.2 - prev.2)
      else if cur.2 = prev.2 then "Timestamp equal to previous (valid)"
      else "Timestamp correctly descending (diff=" ++ toString (cur.2 - prev.2) ++ " ns)" }

/-- The loop body of `validate_timestamp_ordering` for rows 1, 2, ...:
each row is compared against its immediate predecessor. -/
def buildResults : Nat → Row × Int → List (Row × Int) → List RowResult
  | _, _, [] => []
  | i, prev, cur :: rest => stepRowResult i prev cur :: buildResults (i + 1) cur rest

/-- Each row paired with its canonicalized timestamp: the `timestamp_ns`
column as the loop reads it back from the DataFrame. -/
def validationPairs (df : DataFrame) (granularity : String) : List (Row × Int) :=
  df.rows.zip (df.rows.map (fun r => convert_timestamp_to_nanoseconds r.timestamp granularity))

/-- `check_order.validate_timestamp_ordering`.  The in-place assignment
`df['timestamp_ns'] = df['timestamp'].apply(...)` mutates the caller's
DataFrame, so the model passes the DataFrame state explicitly and returns
the updated DataFrame together with the fresh list of result records. -/
def validate_timestamp_ordering (df : DataFrame)
    (granularity : String := "nanosecond") : DataFrame × List RowResult :=
  let ns := df.rows.map (fun r => convert_timestamp_to_nanoseconds r.timestamp granularity)
  let df2 : DataFrame := { df with timestamp_ns := some ns }
  let results :=
    match df.rows.zip ns with
    | [] => []
    | p :: rest => firstRowResult p :: buildResults 1 p rest
  (df2, results)

/-- `invalid_count = (~validation_df['is_valid']).sum()` in the test body. -/
def invalid_count (res : List RowResult) : Nat :=
  (res.filter (fun r => !r.is_valid)).length

/-- `ordering_passed = (invalid_count == 0)` in the test body. -/
def ordering_passed (res : List RowResult) : Bool :=
  invalid_count res == 0

/-- The spec's 3-row example: routing_sequence 30, 20, 10 with canonical
nanoseconds 100, 200, 300 (increasing while the sequence key decreases). -/
def exampleIncreasing : DataFrame :=
  { rows := [⟨1, 30, "19700101-00:00:00.000000100"⟩,
             ⟨2, 20, "19700101-00:00:00.000000200"⟩,
             ⟨3, 10, "19700101-00:00:00.000000300"⟩] }

/-- A parseable first row followed by a malformed timestamp. -/
def exampleSentinelAfterValid : DataFrame :=
  { rows := [⟨1, 2, "19700101-00:00:01.000000000"⟩,
             ⟨2, 1, "not-a-timestamp"⟩] }

/-- Two adjacent malformed timestamps. -/
def exampleBothSentinel : DataFrame :=
  { rows := [⟨1, 2, "not-a-timestamp"⟩,
             ⟨2, 1, "not-a-timestamp"⟩] }

/-- A single well-formed row, used to drive the validator with an
unrecognized granularity. -/
def exampleSingleRow : DataFrame :=
  { rows := [⟨1, 1, "19700101-00:00:01.000000000"⟩] }

/-- The epoch instant with an arbitrary fractional-seconds token attached:
`"19700101-00:00:00." ++ f`. -/
def fracTimestamp (f : List Char) : String :=
  ⟨"19700101-00:00:00.".data ++ f⟩

end CheckOrder

namespace FullTest

open PyStr TsFields

/-- `full_test.convert_timestamp_to_nanoseconds`: the colon-separated
format `YYYYMMDD-HH:MM:SS:NNNNNNNNN`, with the sub-second token parsed by a
plain `int(...)`.  This variant has no internal exception handler, so a
parse failure propagates to the caller: `none` models a raised exception. -/
def convert_timestamp_to_nanoseconds (s : String) : Option Int :=
  match pySplit '-' s.data with
  | [datePart, timePart] =>
    match pySplit ':' timePart with
    | t0 :: t1 :: t2 :: t3 :: _ =>
      match pyInt (datePart.take 4), pyInt ((datePart.drop 4).take 2),
            pyInt ((datePart.drop 6).take 2), pyInt t0, pyInt t1,
            pyInt t2, pyInt t3 with
      | some year, some month, some day, some hour, some minute,
        some second, some nanosecond =>
        let f : TimestampFields :=
          ⟨year, month, day, hour, minute, second, nanosecond⟩
        if datetimeOk f then some (pyCanonical f) else none
      | _, _, _, _, _, _, _ => none
    | _ => none
  | _ => none

/-- The per-row granularity check of `full_test.validate_timestamp_with_schema`:
`difference = abs(timesequence - expected_ns); is_valid = difference < 1000`,
and the enclosing `try`/`except` marks the row invalid when the conversion
raises. -/
def row_is_valid (timesequence : Int) (timestamp : String) : Bool :=
  match convert_timestamp_to_nanoseconds timestamp with
  | some expected => decide ((timesequence - expected).natAbs < 1000)
  | none => false

end FullTest

namespace TimeSequenceNew

open PyStr TsFields

/-- `time_sequence_new.convert_timestamp_to_nanoseconds`: the dot-separated
format, with the sub-second token parsed by a plain
`int(second_and_nano[1])` (no fixed-width padding or truncation); any raised
exception is caught and turned into the sentinel `-1`. -/
def parseTimestampFields (s : String) : Option TimestampFields :=
  match pySplit '-' s.data with
  | [datePart, timePart] =>
    match pySplit ':' timePart with
    | t0 :: t1 :: t2 :: _ =>
      match pyInt (datePart.take 4), pyInt ((datePart.drop 4).take 2),
            pyInt ((datePart.drop 6).take 2), pyInt t0, pyInt t1 with
      | some year, some month, some day, some hour, some minute =>
        match pySplit '.' t2 with
        | s0 :: s1 :: _ =>
          match pyInt s0, pyInt s1 with
          | some second, some nanosecond =>
            let f : TimestampFields :=
              ⟨year, month, day, hour, minute, second, nanosecond⟩
            if datetimeOk f then some f else none
          | _, _ => none
        | _ => none
      | _, _, _, _, _ => none
    | _ => none
  | _ => none

/-- The `-1`-on-failure wrapper of `time_sequence_new`'s converter. -/
def convert_timestamp_to_nanoseconds (s : String) : Int :=
  match parseTimestampFields s with
  | some f => pyCanonical f
  | none => -1

/-- The DataFrame-level check of `time_sequence_new.timestamp_schema`:
`(df['timesequence'] == df['timestamp'].apply(convert_timestamp_to_nanoseconds)).all()`.
A row is a `(timestamp, timesequence)` pair. -/
def crosscheck (rows : List (String × Int)) : Bool :=
  rows.all (fun p => p.2 == convert_timestamp_to_nanoseconds p.1)

end TimeSequenceNew

namespace PyStr

theorem pySplit_of_not_mem (sep : Char) (l : List Char) :
    sep ∉ l → pySplit sep l = [l] := by
  induction l with
  | nil => intro _; rfl
  | cons c t ih =>
    intro h
    have hc : ¬ c = sep := fun hcs => h (hcs ▸ List.mem_cons_self c t)
    have ht : sep ∉ t := fun m => h (List.mem_cons_of_mem c m)
    simp [pySplit, hc, ih ht]

theorem pySplit_append_sep (sep : Char) (xs ys : List Char) :
    sep ∉ xs → pySplit sep (xs ++ sep :: ys) = xs :: pySplit sep ys := by
  induction xs with
  | nil => intro _; simp [pySplit]
  | cons c t ih =>
    intro h
    have hc : ¬ c = sep := fun hcs => h (hcs ▸ List.mem_cons_self c t)
    have ht : sep ∉ t := fun m => h (List.mem_cons_of_mem c m)
    simp [pySplit, hc, ih ht]

theorem isPySpace_eq_false_of_isDigit (c : Char) (h : c.isDigit = true) :
    isPySpace c = false := by
  have h1 : c ≠ ' ' := by rintro rfl; exact absurd h (by decide)
  have h2 : c ≠ '\t' := by rintro rfl; exact absurd h (by decide)
  have h3 : c ≠ '\n' := by rintro rfl; exact absurd h (by decide)
  have h4 : c ≠ '\r' := by rintro rfl; exact absurd h (by decide)
  simp [isPySpace, h1, h2, h3, h4]

theorem dropWhile_eq_self_of_forall {α : Type} {p : α → Bool} (l : List α)
    (h : ∀ c ∈ l, p c = false) : l.dropWhile p = l := by
  cases l with
  | nil => rfl
  | cons a t => simp [List.dropWhile_cons, h a (List.mem_cons_self a t)]

theorem pyStrip_eq_self (cs : List Char) (h : ∀ c ∈ cs, isPySpace c = false) :
    pyStrip cs = cs := by
  unfold pyStrip
  rw [dropWhile_eq_self_of_forall cs h,
      dropWhile_eq_self_of_forall cs.reverse (fun c m => h c (List.mem_reverse.mp m)),
      List.reverse_reverse]

theorem pyInt_digits (cs : List Char) (hne : cs ≠ [])
    (hd : cs.all (·.isDigit) = true) :
    pyInt cs = some ((digitsVal cs : Nat) : Int) := by
  have hall : ∀ c ∈ cs, c.isDigit = true := List.all_eq_true.mp hd
  have hs : pyStrip cs = cs :=
    pyStrip_eq_self cs (fun c m => isPySpace_eq_false_of_isDigit c (hall c m))
  obtain ⟨a, t, rfl⟩ : ∃ a t, cs = a :: t := by
    cases cs with
    | nil => exact absurd rfl hne
    | cons a t => exact ⟨a, t, rfl⟩
  have ha := hall a (List.mem_cons_self a t)
  have hap : ¬ a = '+' := by rintro rfl; exact absurd ha (by decide)
  have ham : ¬ a = '-' := by rintro rfl; exact absurd ha (by decide)
  simp only [pyInt, hs, List.head?_cons, Option.some.injEq]
  rw [if_neg hap, if_neg ham]
  simp [parseNatDigits, hd]

end PyStr

namespace PyFloat

theorem log2fuel_spec : ∀ (f n : Nat), n < 2 ^ f → 1 ≤ n →
    2 ^ log2fuel f n ≤ n ∧ n < 2 ^ (log2fuel f n + 1) := by
  intro f
  induction f with
  | zero => intro n h1 h2; simp at h1; omega
  | succ f ih =>
    intro n h1 h2
    by_cases h : 2 ≤ n
    · have hp : (2 : Nat) ^ (f + 1) = 2 * 2 ^ f := by ring
      have hn2 : n / 2 < 2 ^ f := by omega
      have h12 : 1 ≤ n / 2 := by omega
      obtain ⟨a, b⟩ := ih (n / 2) hn2 h12
      rw [show log2fuel (f + 1) n = log2fuel f (n / 2) + 1 from by simp [log2fuel, h]]
      constructor
      · have hp2 : (2 : Nat) ^ (log2fuel f (n / 2) + 1) = 2 * 2 ^ log2fuel f (n / 2) := by
          ring
        omega
      · have hp3 : (2 : Nat) ^ (log2fuel f (n / 2) + 1 + 1)
            = 2 * 2 ^ (log2fuel f (n / 2) + 1) := by ring
        omega
    · have hone : n = 1 := by omega
      subst hone
      simp [log2fuel, h]

theorem floorLog2_ge {n k : Nat} (hn : n < 2 ^ 70) (h : 2 ^ k ≤ n) (h1 : 1 ≤ n) :
    k ≤ floorLog2 n := by
  obtain ⟨a, b⟩ := log2fuel_spec 70 n hn h1
  by_contra hc
  push_neg at hc
  have hle : (2 : Nat) ^ (log2fuel 70 n + 1) ≤ 2 ^ k :=
    Nat.pow_le_pow_right (by norm_num) (by exact hc)
  have : n < 2 ^ k := lt_of_lt_of_le b hle
  omega

theorem floorLog2_lt {n k : Nat} (hn : n < 2 ^ 70) (h1 : 1 ≤ n) (h : n < 2 ^ k) :
    floorLog2 n < k := by
  obtain ⟨a, b⟩ := log2fuel_spec 70 n hn h1
  by_contra hc
  push_neg at hc
  have hle : (2 : Nat) ^ k ≤ 2 ^ log2fuel 70 n := Nat.pow_le_pow_right (by norm_num) hc
  have : (2 : Nat) ^ k ≤ n := le_trans hle a
  omega

theorem round53Nat_eq_self {n : Nat} (h1 : 2 ^ 53 ≤ n) (h2 : n < 2 ^ 62)
    (hd : 2 ^ 9 ∣ n) : round53Nat n = n := by
  have hn70 : n < 2 ^ 70 := lt_trans h2 (by norm_num)
  have hn1 : 1 ≤ n := le_trans (by norm_num) h1
  have hge : 53 ≤ floorLog2 n := floorLog2_ge hn70 h1 hn1
  have hlt : floorLog2 n < 62 := floorLog2_lt hn70 hn1 h2
  unfold round53Nat
  set e := floorLog2 n - 52 with he
  have he1 : 1 ≤ e := by omega
  have he9 : e ≤ 9 := by omega
  have hdvd : 2 ^ e ∣ n := dvd_trans (pow_dvd_pow 2 he9) hd
  have hmod : n % 2 ^ e = 0 := Nat.mod_eq_zero_of_dvd hdvd
  have hhalf : 0 < 2 ^ (e - 1) := pow_pos (by norm_num) _
  rw [hmod, if_neg (by omega), if_pos hhalf]
  exact Nat.div_mul_cancel hdvd

theorem round53_mul_billion {v : Int} (h : v.natAbs ≤ 4611686018) :
    round53 (v * 1000000000) = v * 1000000000 := by
  unfold round53
  by_cases hs : (v * 1000000000).natAbs < 2 ^ 53
  · rw [if_pos hs]
  · rw [if_neg hs]
    have habs : (v * 1000000000).natAbs = v.natAbs * 1000000000 := by
      rw [Int.natAbs_mul]
      norm_num
    have h53 : 2 ^ 53 ≤ (v * 1000000000).natAbs := Nat.le_of_not_lt hs
    have h62 : (v * 1000000000).natAbs < 2 ^ 62 := by
      rw [habs]
      have hm : v.natAbs * 1000000000 ≤ 4611686018 * 1000000000 :=
        Nat.mul_le_mul_right _ h
      have hb : (2 : Nat) ^ 62 = 4611686018427387904 := by norm_num
      omega
    have hdvd : 2 ^ 9 ∣ (v * 1000000000).natAbs := by
      rw [habs]
      exact Dvd.dvd.mul_left (by decide) _
    rw [round53Nat_eq_self h53 h62 hdvd]
    exact Int.sign_mul_natAbs _

end PyFloat

namespace CheckOrder

theorem validate_snd_eq (df : DataFrame) (g : String) :
    (validate_timestamp_ordering df g).2 =
      match validationPairs df g with
      | [] => []
      | p :: rest => firstRowResult p :: buildResults 1 p rest := rfl

theorem buildResults_length :
    ∀ (l : List (Row × Int)) (k : Nat) (prev : Row × Int),
      (buildResults k prev l).length = l.length := by
  intro l
  induction l with
  | nil => intro k prev; rfl
  | cons c t ih => intro k prev; simp [buildResults, ih]

theorem buildResults_get?_zero (l : List (Row × Int)) (k : Nat)
    (prev cur : Row × Int) (h : l.get? 0 = some cur) :
    (buildResults k prev l).get? 0 = some (stepRowResult k prev cur) := by
  cases l with
  | nil => cases h
  | cons a t =>
    simp only [List.get?_cons_zero, Option.some.injEq] at h
    subst h
    rfl

theorem buildResults_get?_succ :
    ∀ (j : Nat) (l : List (Row × Int)) (k : Nat) (prev pj cur : Row × Int),
      l.get? j = some pj → l.get? (j + 1) = some cur →
      (buildResults k prev l).get? (j + 1)
        = some (stepRowResult (k + (j + 1)) pj cur) := by
  intro j
  induction j with
  | zero =>
    intro l k prev pj cur h0 h1
    cases l with
    | nil => cases h0
    | cons a t =>
      cases t with
      | nil => cases h1
      | cons b t2 =>
        simp only [List.get?_cons_zero, Option.some.injEq] at h0
        have h1b : b = cur := by simpa using h1
        subst h0
        subst h1b
        rfl
  | succ j2 ih =>
    intro l k prev pj cur h0 h1
    cases l with
    | nil => cases h0
    | cons a t =>
      have h0t : t.get? j2 = some pj := by simpa using h0
      have h1t : t.get? (j2 + 1) = some cur := by simpa using h1
      have hrec := ih t (k + 1) a pj cur h0t h1t
      rw [show k + (j2 + 1 + 1) = k + 1 + (j2 + 1) from by omega]
      simpa [buildResults] using hrec

theorem results_get?_zero (df : DataFrame) (g : String) (p : Row × Int)
    (h : (validationPairs df g).get? 0 = some p) :
    ((validate_timestamp_ordering df g).2).get? 0 = some (firstRowResult p) := by
  rw [validate_snd_eq]
  cases hp : validationPairs df g with
  | nil => rw [hp] at h; cases h
  | cons q rest =>
    rw [hp] at h
    simp only [List.get?_cons_zero, Option.some.injEq] at h
    subst h
    rfl

theorem results_get?_succ (df : DataFrame) (g : String) (j : Nat)
    (pj cur : Row × Int)
    (h0 : (validationPairs df g).get? j = some pj)
    (h1 : (validationPairs df g).get? (j + 1) = some cur) :
    ((validate_timestamp_ordering df g).2).get? (j + 1)
      = some (stepRowResult (j + 1) pj cur) := by
  rw [validate_snd_eq]
  cases hp : validationPairs df g with
  | nil => rw [hp] at h0; cases h0
  | cons q rest =>
    rw [hp] at h0 h1
    cases j with
    | zero =>
      have hq : q = pj := by simpa using h0
      have h1r : rest.get? 0 = some cur := by simpa using h1
      have hz := buildResults_get?_zero rest 1 q cur h1r
      rw [← hq]
      simpa using hz
    | succ j2 =>
      have h0r : rest.get? j2 = some pj := by simpa using h0
      have h1r : rest.get? (j2 + 1) = some cur := by simpa using h1
      have hrec := buildResults_get?_succ j2 rest 1 q pj cur h0r h1r
      rw [show (1 : Nat) + (j2 + 1) = j2 + 1 + 1 from by omega] at hrec
      simpa using hrec

theorem results_length (df : DataFrame) (g : String) :
    ((validate_timestamp_ordering df g).2).length = df.rows.length := by
  rw [validate_snd_eq]
  cases hr : df.rows with
  | nil =>
    have hp : validationPairs df g = [] := by simp [validationPairs, hr]
    rw [hp]
    simp [hr]
  | cons r t =>
    have hp : validationPairs df g
        = (r, convert_timestamp_to_nanoseconds r.timestamp g)
          :: t.zip (t.map fun x => convert_timestamp_to_nanoseconds x.timestamp g) := by
      simp [validationPairs, hr]
    rw [hp]
    simp [buildResults_length, hr]

theorem stepRowResult_is_valid_false_iff (i : Nat) (prev cur : Row × Int) :
    (stepRowResult i prev cur).is_valid = false ↔ prev.2 < cur.2 := by
  dsimp only [stepRowResult]
  split_ifs with h
  · simp [h]
  · simp [h]

theorem stepRowResult_is_valid_true_iff (i : Nat) (prev cur : Row × Int) :
    (stepRowResult i prev cur).is_valid = true ↔ cur.2 ≤ prev.2 := by
  dsimp only [stepRowResult]
  split_ifs with h
  · simp; omega
  · simp; omega

theorem stepRowResult_message_of_eq (i : Nat) (prev cur : Row × Int)
    (h : cur.2 = prev.2) :
    (stepRowResult i prev cur).validation_message
      = "Timestamp equal to previous (valid)" := by
  have hng : ¬ cur.2 > prev.2 := by omega
  simp only [stepRowResult]
  rw [if_neg hng, if_pos h]

theorem stepRowResult_message_of_lt (i : Nat) (prev cur : Row × Int)
    (h : cur.2 < prev.2) :
    (stepRowResult i prev cur).validation_message
      = "Timestamp correctly descending (diff=" ++ toString (cur.2 - prev.2) ++ " ns)" := by
  have hng : ¬ cur.2 > prev.2 := by omega
  have hne : ¬ cur.2 = prev.2 := by omega
  simp only [stepRowResult]
  rw [if_neg hng, if_neg hne]

end CheckOrder

/-- C6: canonicalization is total: whenever the parsing phase fails
(`none`, i.e. any raised exception inside the `try` block),
`convert_timestamp_to_nanoseconds` returns the sentinel `-1`; in
particular `"not-a-timestamp"` yields the INVALID sentinel for every
granularity, not an unhandled failure. -/
theorem conversion_total_on_parse_failure :
    (∀ (s g : String), CheckOrder.parseTimestampFields s g = none →
        CheckOrder.convert_timestamp_to_nanoseconds s g = -1) ∧
    (∀ g : String,
        CheckOrder.convert_timestamp_to_nanoseconds "not-a-timestamp" g = -1) := by
  constructor
  · intro s g h
    unfold CheckOrder.convert_timestamp_to_nanoseconds
    rw [h]
  · intro g
    rfl

/-- Witness for C6 at the concrete malformed input. -/
theorem conversion_total_on_parse_failure_witness :
    CheckOrder.convert_timestamp_to_nanoseconds "not-a-timestamp" "nanosecond" = -1 :=
  conversion_total_on_parse_failure.1 "not-a-timestamp" "nanosecond" (by rfl)

/-- C9: the well-formed pre-1970 timestamp `"19691231-23:59:59.999999999"`
parses successfully, yet its canonical value is exactly `-1`, the same
integer the converter returns for a parse failure such as
`"not-a-timestamp"`, so callers cannot tell the two apart. -/
theorem pre_epoch_timestamp_collides_with_sentinel :
    CheckOrder.parseTimestampFields "19691231-23:59:59.999999999" "nanosecond"
      = some ⟨1969, 12, 31, 23, 59, 59, 999999999⟩ ∧
    CheckOrder.convert_timestamp_to_nanoseconds "19691231-23:59:59.999999999" "nanosecond"
      = -1 ∧
    CheckOrder.convert_timestamp_to_nanoseconds "not-a-timestamp" "nanosecond" = -1 :=
  ⟨by decide, by decide, by decide⟩

/-- C10: `validate_timestamp_ordering` writes the `timestamp_ns` column
into the caller's DataFrame in place (modelled by explicit state passing:
the returned DataFrame is the input with exactly that column added) and
leaves the input rows — every other column — unchanged. -/
theorem validator_mutates_dataframe_in_place :
    ∀ (df : CheckOrder.DataFrame) (g : String),
      (CheckOrder.validate_timestamp_ordering df g).1
        = { rows := df.rows,
            timestamp_ns := some (df.rows.map
              (fun r => CheckOrder.convert_timestamp_to_nanoseconds r.timestamp g)) } ∧
      ((CheckOrder.validate_timestamp_ordering df g).1).rows = df.rows :=
  fun _ _ => ⟨rfl, rfl⟩

/-- C1 (amended): for every timestamp string that parses, as long as the
whole-second value is at most 4611686018 in magnitude (so that the
double-precision product `seconds * 1e9` is exact), the canonical value is
the whole-second Unix timestamp times 1,000,000,000 plus the fractional
nanoseconds; and `canonicalize("19700101-00:00:01.000000000", nanosecond)`
equals 1,000,000,000. -/
theorem canonicalize_exact_in_double_range :
    (∀ (s g : String) (f : TsFields.TimestampFields),
        CheckOrder.parseTimestampFields s g = some f →
        (TsFields.secondsSinceEpoch f).natAbs ≤ 4611686018 →
        CheckOrder.convert_timestamp_to_nanoseconds s g
          = TsFields.secondsSinceEpoch f * 1000000000 + f.nanosecond) ∧
    CheckOrder.convert_timestamp_to_nanoseconds "19700101-00:00:01.000000000" "nanosecond"
      = 1000000000 := by
  constructor
  · intro s g f h hb
    have hc : CheckOrder.convert_timestamp_to_nanoseconds s g = TsFields.pyCanonical f := by
      unfold CheckOrder.convert_timestamp_to_nanoseconds
      rw [h]
    rw [hc]
    unfold TsFields.pyCanonical
    rw [PyFloat.round53_mul_billion hb]
  · decide

/-- C1 counterexample: the well-formed timestamp
`"99991231-23:59:59.000000000"` parses to whole-second value 253402300799,
whose exact nanosecond value is 253402300799000000000, but the code's
double-precision multiplication returns 253402300798999986176. -/
theorem canonicalize_year9999_float_rounding :
    CheckOrder.parseTimestampFields "99991231-23:59:59.000000000" "nanosecond"
      = some ⟨9999, 12, 31, 23, 59, 59, 0⟩ ∧
    TsFields.secondsSinceEpoch ⟨9999, 12, 31, 23, 59, 59, 0⟩ * 1000000000 + (0 : Int)
      = 253402300799000000000 ∧
    CheckOrder.convert_timestamp_to_nanoseconds "99991231-23:59:59.000000000" "nanosecond"
      = 253402300798999986176 ∧
    (253402300798999986176 : Int) ≠ 253402300799000000000 :=
  ⟨by decide, by decide, by decide, by decide⟩

/-- Witness for C1 (amended) at a concrete in-range input one day after the
epoch. -/
theorem canonicalize_exact_in_double_range_witness :
    CheckOrder.convert_timestamp_to_nanoseconds "19700102-00:00:00.000000005" "nanosecond"
      = 86400000000005 := by
  have h := canonicalize_exact_in_double_range.1 "19700102-00:00:00.000000005"
      "nanosecond" ⟨1970, 1, 2, 0, 0, 0, 5⟩ (by decide) (by decide)
  rw [h]
  decide

/-- C4 counterexample: a row whose timestamp fails canonicalization gets
sentinel `-1` but is marked VALID: after a parseable row it is annotated
"correctly descending", and next to another failing row it is annotated
"equal to previous" — the validator never flags the sentinel itself. -/
theorem invalid_sentinel_row_not_flagged :
    ((CheckOrder.validate_timestamp_ordering CheckOrder.exampleSentinelAfterValid
        "nanosecond").2.map (fun r => (r.timestamp_ns, r.is_valid)))
      = [(1000000000, true), (-1, true)] ∧
    (((CheckOrder.validate_timestamp_ordering CheckOrder.exampleSentinelAfterValid
        "nanosecond").2.get? 1).map (fun r => r.validation_message))
      = some "Timestamp correctly descending (diff=-1000000001 ns)" ∧
    ((CheckOrder.validate_timestamp_ordering CheckOrder.exampleBothSentinel
        "nanosecond").2.map (fun r => (r.timestamp_ns, r.is_valid, r.validation_message)))
      = [(-1, true, "First row or valid ordering"),
         (-1, true, "Timestamp equal to previous (valid)")] :=
  ⟨by decide, by decide, by decide⟩

/-- C4 (amended): a row whose timestamp fails canonicalization receives the
sentinel `-1` as its `timestamp_ns` and is compared exactly like an
ordinary value: row 0 is valid regardless; a later sentinel row is valid
precisely when `-1` does not exceed the predecessor's value (annotated
"equal to previous" when the predecessor is also `-1`, "correctly
descending" when the predecessor is larger), with no distinct diagnostic
for the parse failure. -/
theorem invalid_sentinel_row_compares_as_minus_one :
    (∀ (df : CheckOrder.DataFrame) (g : String) (p : CheckOrder.Row × Int)
        (r0 : CheckOrder.RowResult),
        (CheckOrder.validationPairs df g).get? 0 = some p → p.2 = -1 →
        ((CheckOrder.validate_timestamp_ordering df g).2).get? 0 = some r0 →
        r0.is_valid = true) ∧
    (∀ (df : CheckOrder.DataFrame) (g : String) (j : Nat)
        (pj cur : CheckOrder.Row × Int),
        (CheckOrder.validationPairs df g).get? j = some pj →
        (CheckOrder.validationPairs df g).get? (j + 1) = some cur →
        cur.2 = -1 →
        ((CheckOrder.validate_timestamp_ordering df g).2).get? (j + 1)
          = some (CheckOrder.stepRowResult (j + 1) pj cur) ∧
        ((CheckOrder.stepRowResult (j + 1) pj cur).is_valid = true ↔ -1 ≤ pj.2) ∧
        (pj.2 = -1 →
          (CheckOrder.stepRowResult (j + 1) pj cur).validation_message
            = "Timestamp equal to previous (valid)") ∧
        (-1 < pj.2 →
          (CheckOrder.stepRowResult (j + 1) pj cur).validation_message
            = "Timestamp correctly descending (diff="
                ++ toString ((-1 : Int) - pj.2) ++ " ns)")) := by
  constructor
  · intro df g p r0 h0 _ hr
    rw [CheckOrder.results_get?_zero df g p h0] at hr
    have : CheckOrder.firstRowResult p = r0 := by simpa using hr
    rw [← this]
    rfl
  · intro df g j pj cur h0 h1 hcur
    refine ⟨CheckOrder.results_get?_succ df g j pj cur h0 h1, ?_, ?_, ?_⟩
    · rw [CheckOrder.stepRowResult_is_valid_true_iff, hcur]
    · intro hp
      exact CheckOrder.stepRowResult_message_of_eq _ pj cur (by omega)
    · intro hp
      have := CheckOrder.stepRowResult_message_of_lt (j + 1) pj cur (by omega)
      rw [this, hcur]

/-- Witness for C4 (amended) at the concrete two-row input whose second
timestamp is malformed. -/
theorem invalid_sentinel_row_compares_as_minus_one_witness :
    ((CheckOrder.validate_timestamp_ordering CheckOrder.exampleSentinelAfterValid
        "nanosecond").2).get? 1
      = some (CheckOrder.stepRowResult 1
          (⟨1, 2, "19700101-00:00:01.000000000"⟩, 1000000000)
          (⟨2, 1, "not-a-timestamp"⟩, -1)) := by
  have h := invalid_sentinel_row_compares_as_minus_one.2
      CheckOrder.exampleSentinelAfterValid "nanosecond" 0
      (⟨1, 2, "19700101-00:00:01.000000000"⟩, 1000000000)
      (⟨2, 1, "not-a-timestamp"⟩, -1) (by decide) (by decide) (by decide)
  exact h.1

/-- C5: the `raise ValueError(f"Unknown granularity: ...")` inside the
converter sits inside its own `try`/`except Exception` block, so an
unrecognized granularity is swallowed into the per-row sentinel `-1`
instead of failing: for any granularity other than `'nanosecond'` and
`'microsecond'` every string converts to `-1`, and the validator happily
processes rows, marking them valid. -/
theorem unknown_granularity_swallowed_to_sentinel :
    (∀ (s g : String), g ≠ "nanosecond" → g ≠ "microsecond" →
        CheckOrder.convert_timestamp_to_nanoseconds s g = -1) ∧
    ((CheckOrder.validate_timestamp_ordering CheckOrder.exampleSingleRow
        "second").2.map (fun r => (r.timestamp_ns, r.is_valid)))
      = [(-1, true)] := by
  constructor
  · intro s g h1 h2
    have hsub : ∀ sub, CheckOrder.parseSubsecond g sub = none := by
      intro sub
      unfold CheckOrder.parseSubsecond
      rw [if_neg h1, if_neg h2]
    have hp : CheckOrder.parseTimestampFields s g = none := by
      unfold CheckOrder.parseTimestampFields
      simp only [hsub]
      split
      · split
        · split
          · split
            · split
              · rename_i heq
                exact Option.noConfusion heq
              · rfl
            · rfl
          · rfl
        · rfl
      · rfl
    unfold CheckOrder.convert_timestamp_to_nanoseconds
    rw [hp]
  · decide

/-- Witness for C5 at a concrete unknown granularity. -/
theorem unknown_granularity_swallowed_to_sentinel_witness :
    CheckOrder.convert_timestamp_to_nanoseconds "19700101-00:00:01.000000000" "second"
      = -1 :=
  unknown_granularity_swallowed_to_sentinel.1 "19700101-00:00:01.000000000" "second"
    (by decide) (by decide)

/-- C7: the aggregate result satisfies
`ordering_passed = (count of is_valid == false) == 0` (equivalently, all
rows valid), and the validator always completes a full pass: it emits one
result record per input row. -/
theorem ordering_passed_iff_all_rows_valid :
    ∀ (df : CheckOrder.DataFrame) (g : String),
      ((CheckOrder.validate_timestamp_ordering df g).2).length = df.rows.length ∧
      (CheckOrder.ordering_passed ((CheckOrder.validate_timestamp_ordering df g).2) = true ↔
        CheckOrder.invalid_count ((CheckOrder.validate_timestamp_ordering df g).2) = 0) ∧
      (CheckOrder.ordering_passed ((CheckOrder.validate_timestamp_ordering df g).2) = true ↔
        ∀ r ∈ (CheckOrder.validate_timestamp_ordering df g).2, r.is_valid = true) := by
  intro df g
  refine ⟨CheckOrder.results_length df g, ?_, ?_⟩
  · unfold CheckOrder.ordering_passed
    simp
  · unfold CheckOrder.ordering_passed CheckOrder.invalid_count
    simp [List.length_eq_zero, List.filter_eq_nil_iff]

/-- Witness for C7 at the spec's increasing 3-row example: 3 result rows,
aggregate fail. -/
theorem ordering_passed_iff_all_rows_valid_witness :
    ((CheckOrder.validate_timestamp_ordering CheckOrder.exampleIncreasing
        "nanosecond").2).length = 3 ∧
    CheckOrder.ordering_passed
      ((CheckOrder.validate_timestamp_ordering CheckOrder.exampleIncreasing
        "nanosecond").2) = false := by
  constructor
  · exact (ordering_passed_iff_all_rows_valid CheckOrder.exampleIncreasing "nanosecond").1
  · decide

/-- C2: row 0 of the validator's output is always valid; every row `i > 0`
is compared against exactly its predecessor, is flagged invalid precisely
when its canonical timestamp exceeds the predecessor's, records both ids,
both timestamps and the signed difference current minus previous, and is
annotated "equal to previous" respectively "correctly descending" in the
two valid cases; on the spec's 3-row example with nanoseconds
[100, 200, 300] exactly rows 1 and 2 are invalid with difference 100. -/
theorem validator_rowwise_ordering_results :
    (∀ (df : CheckOrder.DataFrame) (g : String) (r0 : CheckOrder.RowResult),
        ((CheckOrder.validate_timestamp_ordering df g).2).get? 0 = some r0 →
        r0.is_valid = true) ∧
    (∀ (df : CheckOrder.DataFrame) (g : String) (j : Nat)
        (pj cur : CheckOrder.Row × Int),
        (CheckOrder.validationPairs df g).get? j = some pj →
        (CheckOrder.validationPairs df g).get? (j + 1) = some cur →
        ((CheckOrder.validate_timestamp_ordering df g).2).get? (j + 1)
          = some (CheckOrder.stepRowResult (j + 1) pj cur) ∧
        ((CheckOrder.stepRowResult (j + 1) pj cur).is_valid = false ↔ pj.2 < cur.2) ∧
        (CheckOrder.stepRowResult (j + 1) pj cur).id = cur.1.id ∧
        (CheckOrder.stepRowResult (j + 1) pj cur).timestamp = cur.1.timestamp ∧
        (CheckOrder.stepRowResult (j + 1) pj cur).timestamp_ns = cur.2 ∧
        (CheckOrder.stepRowResult (j + 1) pj cur).previous_id = some pj.1.id ∧
        (CheckOrder.stepRowResult (j + 1) pj cur).previous_timestamp
          = some pj.1.timestamp ∧
        (CheckOrder.stepRowResult (j + 1) pj cur).previous_timestamp_ns = some pj.2 ∧
        (CheckOrder.stepRowResult (j + 1) pj cur).timestamp_difference_ns
          = some (cur.2 - pj.2) ∧
        (cur.2 = pj.2 →
          (CheckOrder.stepRowResult (j + 1) pj cur).is_valid = true ∧
          (CheckOrder.stepRowResult (j + 1) pj cur).validation_message
            = "Timestamp equal to previous (valid)") ∧
        (cur.2 < pj.2 →
          (CheckOrder.stepRowResult (j + 1) pj cur).is_valid = true ∧
          (CheckOrder.stepRowResult (j + 1) pj cur).validation_message
            = "Timestamp correctly descending (diff="
                ++ toString (cur.2 - pj.2) ++ " ns)")) ∧
    ((CheckOrder.validate_timestamp_ordering CheckOrder.exampleIncreasing
        "nanosecond").2.map (fun r => (r.is_valid, r.timestamp_difference_ns))
      = [(true, none), (false, some 100), (false, some 100)]) := by
  refine ⟨?_, ?_, by decide⟩
  · intro df g r0 h
    rw [CheckOrder.validate_snd_eq] at h
    cases hp : CheckOrder.validationPairs df g with
    | nil => rw [hp] at h; simp at h
    | cons p rest =>
      rw [hp] at h
      simp only [List.get?_cons_zero, Option.some.injEq] at h
      rw [← h]
      rfl
  · intro df g j pj cur h0 h1
    refine ⟨CheckOrder.results_get?_succ df g j pj cur h0 h1,
      CheckOrder.stepRowResult_is_valid_false_iff _ pj cur,
      rfl, rfl, rfl, rfl, rfl, rfl, rfl, ?_, ?_⟩
    · intro h
      exact ⟨(CheckOrder.stepRowResult_is_valid_true_iff _ pj cur).mpr (by omega),
        CheckOrder.stepRowResult_message_of_eq _ pj cur h⟩
    · intro h
      exact ⟨(CheckOrder.stepRowResult_is_valid_true_iff _ pj cur).mpr (by omega),
        CheckOrder.stepRowResult_message_of_lt _ pj cur h⟩

/-- Witness for C2 at the spec's 3-row example, row 1. -/
theorem validator_rowwise_ordering_results_witness :
    ((CheckOrder.validate_timestamp_ordering CheckOrder.exampleIncreasing
        "nanosecond").2).get? 1
      = some (CheckOrder.stepRowResult 1
          (⟨1, 30, "19700101-00:00:00.000000100"⟩, 100)
          (⟨2, 20, "19700101-00:00:00.000000200"⟩, 200)) ∧
    (CheckOrder.stepRowResult 1
        (⟨1, 30, "19700101-00:00:00.000000100"⟩, 100)
        (⟨2, 20, "19700101-00:00:00.000000200"⟩, 200)).is_valid = false := by
  have h := validator_rowwise_ordering_results.2.1 CheckOrder.exampleIncreasing
      "nanosecond" 0
      (⟨1, 30, "19700101-00:00:00.000000100"⟩, 100)
      (⟨2, 20, "19700101-00:00:00.000000200"⟩, 200) (by decide) (by decide)
  exact ⟨h.1, h.2.1.mpr (by decide)⟩

/-- C8 counterexample: `full_test`'s per-row cross-check passes a row whose
`timesequence` differs from the canonical timestamp by 999 nanoseconds, so
that validation mode does not require exact equality. -/
theorem tolerance_check_passes_inexact_row :
    FullTest.convert_timestamp_to_nanoseconds "19700101-00:00:01:000000000"
      = some 1000000000 ∧
    FullTest.row_is_valid 1000000999 "19700101-00:00:01:000000000" = true ∧
    (1000000999 : Int) ≠ 1000000000 :=
  ⟨by decide, by decide, by decide⟩

/-- C8 (amended): the schema-level cross-check of `time_sequence_new`
requires exact integer equality `timesequence = canonicalize(timestamp)`
for every row, while `full_test`'s per-row granularity check passes a row
whenever `|timesequence - canonicalize(timestamp)| < 1000` (a one
microsecond tolerance), and fails the row when conversion raises. -/
theorem crosscheck_exact_vs_tolerance :
    (∀ rows : List (String × Int),
        TimeSequenceNew.crosscheck rows = true ↔
          ∀ p ∈ rows, p.2 = TimeSequenceNew.convert_timestamp_to_nanoseconds p.1) ∧
    (∀ (ts e : Int) (s : String),
        FullTest.convert_timestamp_to_nanoseconds s = some e →
        (FullTest.row_is_valid ts s = true ↔ (ts - e).natAbs < 1000)) ∧
    (∀ (ts : Int) (s : String),
        FullTest.convert_timestamp_to_nanoseconds s = none →
        FullTest.row_is_valid ts s = false) := by
  refine ⟨?_, ?_, ?_⟩
  · intro rows
    unfold TimeSequenceNew.crosscheck
    simp [List.all_eq_true]
  · intro ts e s h
    unfold FullTest.row_is_valid
    rw [h]
    simp
  · intro ts s h
    unfold FullTest.row_is_valid
    rw [h]

/-- Witness for C8 (amended): a row exactly at the tolerance boundary
(difference 1000) fails the `full_test` check. -/
theorem crosscheck_exact_vs_tolerance_witness :
    FullTest.row_is_valid 1000001000 "19700101-00:00:01:000000000" = false := by
  have h := crosscheck_exact_vs_tolerance.2.1 1000001000 1000000000
      "19700101-00:00:01:000000000" (by decide)
  have hn : ¬ ((1000001000 - 1000000000 : Int).natAbs < 1000) := by decide
  cases hb : FullTest.row_is_valid 1000001000 "19700101-00:00:01:000000000"
  · rfl
  · exact absurd (h.mp hb) hn

namespace PyStr

theorem not_mem_of_all_digits (f : List Char) (hd : f.all (·.isDigit) = true)
    (c : Char) (hc : c.isDigit = false) : c ∉ f := by
  intro m
  have := List.all_eq_true.mp hd c m
  simp [this] at hc

theorem pyLjustTake_all_digits (f : List Char) (w : Nat)
    (hd : f.all (·.isDigit) = true) : (pyLjustTake f w).all (·.isDigit) = true := by
  apply List.all_eq_true.mpr
  intro c hc
  rcases List.mem_append.mp (List.take_subset _ _ hc) with h | h
  · exact List.all_eq_true.mp hd c h
  · have hz : c = '0' := List.eq_of_mem_replicate h
    subst hz
    decide

theorem pyLjustTake_length (f : List Char) (w : Nat) :
    (pyLjustTake f w).length = w := by
  simp [pyLjustTake]
  omega

theorem pyLjustTake_ne_nil (f : List Char) (w : Nat) (hw : 0 < w) :
    pyLjustTake f w ≠ [] := by
  intro h
  have := congrArg List.length h
  rw [pyLjustTake_length] at this
  simp at this
  omega

end PyStr

/-- C3: the fractional-seconds token is interpreted as a fixed-width
zero-padded digit string — right-padded with `'0'` to the granularity's
width if shorter, truncated if longer — never as a plain integer first:
for every digit token `f`, the nanosecond value at granularity
`'nanosecond'` is the decimal value of `ljust(f, 9, '0')[:9]`, and at
`'microsecond'` it is the decimal value of `ljust(f, 6, '0')[:6]` times
1000; concretely `canonicalize("19700101-00:00:00.000001", microsecond)`
is 1000, and `".001"` versus `".1"` shows leading zeros are significant
even though plain `int` parsing would identify the two tokens. -/
theorem fractional_token_fixed_width :
    (∀ f : List Char, f.all (·.isDigit) = true →
        CheckOrder.convert_timestamp_to_nanoseconds
            (CheckOrder.fracTimestamp f) "nanosecond"
          = ((PyStr.digitsVal (PyStr.pyLjustTake f 9) : Nat) : Int) ∧
        CheckOrder.convert_timestamp_to_nanoseconds
            (CheckOrder.fracTimestamp f) "microsecond"
          = ((PyStr.digitsVal (PyStr.pyLjustTake f 6) : Nat) : Int) * 1000) ∧
    CheckOrder.convert_timestamp_to_nanoseconds "19700101-00:00:00.000001"
        "microsecond" = 1000 ∧
    CheckOrder.convert_timestamp_to_nanoseconds "19700101-00:00:00.001"
        "nanosecond" = 1000000 ∧
    CheckOrder.convert_timestamp_to_nanoseconds "19700101-00:00:00.1"
        "nanosecond" = 100000000 ∧
    PyStr.pyInt "001".data = PyStr.pyInt "1".data := by
  refine ⟨?_, by decide, by decide, by decide, by decide⟩
  intro f hd
  have hdash : '-' ∉ f := PyStr.not_mem_of_all_digits f hd '-' (by decide)
  have hcolon : ':' ∉ f := PyStr.not_mem_of_all_digits f hd ':' (by decide)
  have hdot : '.' ∉ f := PyStr.not_mem_of_all_digits f hd '.' (by decide)
  have hnm1 : '-' ∉ ("00:00:00.".data ++ f) := by
    intro m
    rcases List.mem_append.mp m with h | h
    · exact absurd h (by decide)
    · exact hdash h
  have hnm2 : ':' ∉ ("00.".data ++ f) := by
    intro m
    rcases List.mem_append.mp m with h | h
    · exact absurd h (by decide)
    · exact hcolon h
  have hsplit1 : PyStr.pySplit '-' ("19700101-00:00:00.".data ++ f)
      = ["19700101".data, "00:00:00.".data ++ f] := by
    have e1 : "19700101-00:00:00.".data ++ f
        = "19700101".data ++ '-' :: ("00:00:00.".data ++ f) := rfl
    rw [e1, PyStr.pySplit_append_sep _ _ _ (by decide),
        PyStr.pySplit_of_not_mem _ _ hnm1]
  have hsplit2 : PyStr.pySplit ':' ("00:00:00.".data ++ f)
      = ["00".data, "00".data, "00.".data ++ f] := by
    have e2 : "00:00:00.".data ++ f = "00".data ++ ':' :: ("00:00.".data ++ f) := rfl
    have e3 : "00:00.".data ++ f = "00".data ++ ':' :: ("00.".data ++ f) := rfl
    rw [e2, PyStr.pySplit_append_sep _ _ _ (by decide), e3,
        PyStr.pySplit_append_sep _ _ _ (by decide),
        PyStr.pySplit_of_not_mem _ _ hnm2]
  have hsplit3 : PyStr.pySplit '.' ("00.".data ++ f) = ["00".data, f] := by
    have e4 : "00.".data ++ f = "00".data ++ '.' :: f := rfl
    rw [e4, PyStr.pySplit_append_sep _ _ _ (by decide),
        PyStr.pySplit_of_not_mem _ _ hdot]
  have hy : PyStr.pyInt ("19700101".data.take 4) = some 1970 := by decide
  have hmo : PyStr.pyInt (("19700101".data.drop 4).take 2) = some 1 := by decide
  have hdy : PyStr.pyInt (("19700101".data.drop 6).take 2) = some 1 := by decide
  have hzero : PyStr.pyInt "00".data = some 0 := by decide
  have hns : PyStr.pyInt (PyStr.pyLjustTake f 9)
      = some ((PyStr.digitsVal (PyStr.pyLjustTake f 9) : Nat) : Int) :=
    PyStr.pyInt_digits _ (PyStr.pyLjustTake_ne_nil f 9 (by norm_num))
      (PyStr.pyLjustTake_all_digits f 9 hd)
  have hmic : PyStr.pyInt (PyStr.pyLjustTake f 6)
      = some ((PyStr.digitsVal (PyStr.pyLjustTake f 6) : Nat) : Int) :=
    PyStr.pyInt_digits _ (PyStr.pyLjustTake_ne_nil f 6 (by norm_num))
      (PyStr.pyLjustTake_all_digits f 6 hd)
  have hsubn : CheckOrder.parseSubsecond "nanosecond" f
      = PyStr.pyInt (PyStr.pyLjustTake f 9) := by
    unfold CheckOrder.parseSubsecond
    rw [if_pos rfl]
  have hsubm : CheckOrder.parseSubsecond "microsecond" f
      = (PyStr.pyInt (PyStr.pyLjustTake f 6)).map (fun micro => micro * 1000) := by
    unfold CheckOrder.parseSubsecond
    rw [if_neg (by decide), if_pos rfl]
  have hdata : (CheckOrder.fracTimestamp f).data = "19700101-00:00:00.".data ++ f := rfl
  have hokn : TsFields.datetimeOk
      ⟨1970, 1, 1, 0, 0, 0, ((PyStr.digitsVal (PyStr.pyLjustTake f 9) : Nat) : Int)⟩
      = true := rfl
  have hokm : TsFields.datetimeOk
      ⟨1970, 1, 1, 0, 0, 0,
        ((PyStr.digitsVal (PyStr.pyLjustTake f 6) : Nat) : Int) * 1000⟩ = true := rfl
  have hparsen : CheckOrder.parseTimestampFields (CheckOrder.fracTimestamp f) "nanosecond"
      = some ⟨1970, 1, 1, 0, 0, 0,
          ((PyStr.digitsVal (PyStr.pyLjustTake f 9) : Nat) : Int)⟩ := by
    simp only [CheckOrder.parseTimestampFields, hdata, hsplit1, hsplit2, hsplit3,
      hy, hmo, hdy, hzero, hsubn, hns, hokn, if_true]
  have hparsem : CheckOrder.parseTimestampFields (CheckOrder.fracTimestamp f) "microsecond"
      = some ⟨1970, 1, 1, 0, 0, 0,
          ((PyStr.digitsVal (PyStr.pyLjustTake f 6) : Nat) : Int) * 1000⟩ := by
    simp only [CheckOrder.parseTimestampFields, hdata, hsplit1, hsplit2, hsplit3,
      hy, hmo, hdy, hzero, hsubm, hmic, Option.map_some', hokm, if_true]
  constructor
  · have hc : CheckOrder.convert_timestamp_to_nanoseconds
        (CheckOrder.fracTimestamp f) "nanosecond"
        = TsFields.pyCanonical ⟨1970, 1, 1, 0, 0, 0,
            ((PyStr.digitsVal (PyStr.pyLjustTake f 9) : Nat) : Int)⟩ := by
      unfold CheckOrder.convert_timestamp_to_nanoseconds
      rw [hparsen]
    rw [hc]
    unfold TsFields.pyCanonical
    have hS : TsFields.secondsSinceEpoch ⟨1970, 1, 1, 0, 0, 0,
        ((PyStr.digitsVal (PyStr.pyLjustTake f 9) : Nat) : Int)⟩ = 0 := by
      simp only [TsFields.secondsSinceEpoch]
      decide
    rw [hS, show ((0 : Int) * 1000000000) = 0 from by decide,
        show PyFloat.round53 0 = 0 from by decide, zero_add]
  · have hc : CheckOrder.convert_timestamp_to_nanoseconds
        (CheckOrder.fracTimestamp f) "microsecond"
        = TsFields.pyCanonical ⟨1970, 1, 1, 0, 0, 0,
            ((PyStr.digitsVal (PyStr.pyLjustTake f 6) : Nat) : Int) * 1000⟩ := by
      unfold CheckOrder.convert_timestamp_to_nanoseconds
      rw [hparsem]
    rw [hc]
    unfold TsFields.pyCanonical
    have hS : TsFields.secondsSinceEpoch ⟨1970, 1, 1, 0, 0, 0,
        ((PyStr.digitsVal (PyStr.pyLjustTake f 6) : Nat) : Int) * 1000⟩ = 0 := by
      simp only [TsFields.secondsSinceEpoch]
      decide
    rw [hS, show ((0 : Int) * 1000000000) = 0 from by decide,
        show PyFloat.round53 0 = 0 from by decide, zero_add]

/-- Witness for C3 at the 6-digit token `"000001"`. -/
theorem fractional_token_fixed_width_witness :
    CheckOrder.convert_timestamp_to_nanoseconds
        (CheckOrder.fracTimestamp ['0', '0', '0', '0', '0', '1']) "microsecond"
      = 1000 := by
  have h := (fractional_token_fixed_width.1 ['0', '0', '0', '0', '0', '1']
      (by decide)).2
  rw [h]
  decide
